import Mathlib

/-!
Shallow embedding of the Cashfree payout zkTLS provider module
(`src/providers/cashfree`): types, constants, pattern builders, the
token cache, header builders and the two proving entry points, together
with theorems about them.  Network I/O (the HTTP authorize call, the
external proof engine) and cryptography (the RSA-OAEP signature) are
abstracted as explicit parameters: the outcome of the single possible
authorize call is an `Except` value, the engine result an `Option Proof`,
and the computed signature a plain string.  Wall-clock time is an
explicit `now : Nat` (unix seconds).
-/

/-- JavaScript truthiness of an optional string (`undefined` and `""` are
falsy). -/
def strTruthy : Option String → Bool
  | some s => s ≠ ""
  | none => false

/-- JavaScript truthiness of an optional number (`undefined` and `0` are
falsy). -/
def natTruthy : Option Nat → Bool
  | some n => n ≠ 0
  | none => false

/-- JavaScript `a || b` on an optional string `a` and a default `b`:
returns `a`-contents when truthy, else `b`. -/
def jsOr : Option String → String → String
  | some s, b => if s ≠ "" then s else b
  | none, b => b

/-- Substring test: `needle` occurs contiguously inside `hay`. -/
def strContains (hay needle : String) : Bool :=
  hay.data.tails.any (fun t => needle.data.isPrefixOf t)

/-- HTTP methods used by the module (`HttpMethod` in `types.ts`). -/
inductive HttpMethod where
  | GET
  | POST
  deriving Repr, DecidableEq

/-- Proof context pair (`{ contextAddress, contextMessage }`). -/
structure ProofContext where
  contextAddress : String
  contextMessage : String
  deriving Repr, DecidableEq

/-- The public (proof-visible) request descriptor (`Options` in
`interfaces.ts`, as consumed by `buildPublicOptions`). -/
structure Options where
  method : HttpMethod
  headers : List (String × String)
  body : Option String
  useTee : Bool
  geoLocation : Option String
  context : Option ProofContext
  deriving Repr, DecidableEq

/-- A response match rule `{ type: 'regex' | 'contains', value }`. -/
inductive MatchType where
  | regex
  | contains
  deriving Repr, DecidableEq

/-- One entry of `responseMatches`. -/
structure MatchRule where
  type : MatchType
  value : String
  deriving Repr, DecidableEq

/-- One entry of `responseRedactions`
(`{ jsonPath?, regex?, xPath? }`). -/
structure RedactionRule where
  jsonPath : Option String := none
  regex : Option String := none
  xPath : Option String := none
  deriving Repr, DecidableEq

/-- The secret (proof-hidden) request descriptor (`secretOptions` in
`interfaces.ts`). -/
structure SecretOptionsV where
  headers : List (String × String)
  responseMatches : List MatchRule
  responseRedactions : List RedactionRule
  deriving Repr, DecidableEq

/-- Cashfree environment tag (`CashfreeEnvironment` in `types.ts`). -/
inductive CashfreeEnvironment where
  | production
  | sandbox
  deriving Repr, DecidableEq

/-- `CASHFREE_DOMAINS` from `constants.ts`. -/
def CASHFREE_DOMAINS : CashfreeEnvironment → String
  | .production => "https://api.cashfree.com"
  | .sandbox => "https://sandbox.cashfree.com"

/-- `CASHFREE_AUTH_DOMAINS` from `constants.ts`. -/
def CASHFREE_AUTH_DOMAINS : CashfreeEnvironment → String
  | .production => "https://payout-api.cashfree.com"
  | .sandbox => "https://payout-gamma.cashfree.com"

/-- `CASHFREE_ENDPOINTS.createTransfer` from `constants.ts`. -/
def ENDPOINT_createTransfer : String := "/payout/transfers"

/-- `CASHFREE_ENDPOINTS.getTransferStatus` from `constants.ts`. -/
def ENDPOINT_getTransferStatus : String := "/payout/transfers"

/-- `CASHFREE_ENDPOINTS.authorize` from `constants.ts`. -/
def ENDPOINT_authorize : String := "/payout/v1/authorize"

/-- `DEFAULT_API_VERSION` from `constants.ts`. -/
def DEFAULT_API_VERSION : String := "2024-01-01"

/-- `CashfreeTransferStatus` enum from `types.ts`. -/
inductive CashfreeTransferStatus where
  | RECEIVED
  | PROCESSING
  | PENDING
  | SUCCESS
  | FAILED
  | REJECTED
  | REVERSED
  deriving Repr, DecidableEq

/-- The string value of each `CashfreeTransferStatus` enum member. -/
def CashfreeTransferStatus.valueOf : CashfreeTransferStatus → String
  | .RECEIVED => "RECEIVED"
  | .PROCESSING => "PROCESSING"
  | .PENDING => "PENDING"
  | .SUCCESS => "SUCCESS"
  | .FAILED => "FAILED"
  | .REJECTED => "REJECTED"
  | .REVERSED => "REVERSED"

/-! ## patterns.ts

The repository carries two revisions of `patterns.ts`; the one embedded
here is the revision imported by `cashfree-payout.ts` and asserted by
`tests/cashfree/cashfree-payout.test.ts` (5 match rules with an expected
status, 4 without). -/

/-- `TRANSFER_STATUS_REDACTIONS.transferId`. -/
def STATUS_REDACTION_transferId : RedactionRule := { jsonPath := some "$.transfer_id" }

/-- `TRANSFER_STATUS_REDACTIONS.cfTransferId`. -/
def STATUS_REDACTION_cfTransferId : RedactionRule := { jsonPath := some "$.cf_transfer_id" }

/-- `TRANSFER_STATUS_REDACTIONS.status`. -/
def STATUS_REDACTION_status : RedactionRule := { jsonPath := some "$.status" }

/-- `TRANSFER_STATUS_REDACTIONS.transferAmount`. -/
def STATUS_REDACTION_transferAmount : RedactionRule := { jsonPath := some "$.transfer_amount" }

/-- `getTransferStatusRedactions` from `patterns.ts`: the 4 default
jsonPath rules, followed by any caller-supplied additional extraction
rules. -/
def getTransferStatusRedactions (additionalExtractions : Option (List RedactionRule)) :
    List RedactionRule :=
  let defaults := [STATUS_REDACTION_transferId, STATUS_REDACTION_cfTransferId,
    STATUS_REDACTION_status, STATUS_REDACTION_transferAmount]
  match additionalExtractions with
  | some l => if l.length > 0 then defaults ++ l else defaults
  | none => defaults

/-- `getTransferCreationRedactions` from `patterns.ts`. -/
def getTransferCreationRedactions : List RedactionRule :=
  [{ jsonPath := some "$.transfer_id" }, { jsonPath := some "$.cf_transfer_id" },
   { jsonPath := some "$.status" }, { jsonPath := some "$.status_code" }]

/-- The regex extraction rule for `transfer_id` pushed by
`getTransferStatusMatches`. -/
def MATCH_extract_transfer_id : MatchRule :=
  { type := .regex, value := "\"transfer_id\"\\s*:\\s*\"(?<transfer_id>[^\"]+)\"" }

/-- The regex extraction rule for `cf_transfer_id`. -/
def MATCH_extract_cf_transfer_id : MatchRule :=
  { type := .regex, value := "\"cf_transfer_id\"\\s*:\\s*\"(?<cf_transfer_id>[^\"]+)\"" }

/-- The regex extraction rule for `status`. -/
def MATCH_extract_status : MatchRule :=
  { type := .regex, value := "\"status\"\\s*:\\s*\"(?<status>[^\"]+)\"" }

/-- The regex extraction rule for `transfer_amount`. -/
def MATCH_extract_transfer_amount : MatchRule :=
  { type := .regex, value := "\"transfer_amount\"\\s*:\\s*(?<transfer_amount>[\\d.]+)" }

/-- `getTransferStatusMatches` from `patterns.ts`: an optional leading
`contains` assertion on the expected status, then the four regex
extraction rules. -/
def getTransferStatusMatches (expectedStatus : Option CashfreeTransferStatus) :
    List MatchRule :=
  (match expectedStatus with
   | some s => [{ type := .contains, value := "\"status\":\"" ++ s.valueOf ++ "\"" }]
   | none => ([] : List MatchRule)) ++
  [MATCH_extract_transfer_id, MATCH_extract_cf_transfer_id,
   MATCH_extract_status, MATCH_extract_transfer_amount]

/-- `getTransferCreationMatches` from `patterns.ts`. -/
def getTransferCreationMatches : List MatchRule :=
  [{ type := .contains, value := "\"cf_transfer_id\"" },
   MATCH_extract_transfer_id, MATCH_extract_cf_transfer_id, MATCH_extract_status,
   { type := .regex, value := "\"status_code\"\\s*:\\s*\"(?<status_code>[^\"]+)\"" }]

/-! ## Client state and construction (`cashfree-payout.ts`) -/

/-- `CashfreeCredentials` from `types.ts`. -/
structure CashfreeCredentials where
  clientId : String
  clientSecret : String
  rsaPublicKey : Option String := none
  bearerToken : Option String := none
  apiVersion : Option String := none
  deriving Repr, DecidableEq

/-- `CashfreePayoutConfig` from `types.ts` (the Reclaim application
identity and `logs` flag only feed the external `ReclaimClient` and are
omitted). -/
structure CashfreePayoutConfig where
  credentials : CashfreeCredentials
  environment : Option CashfreeEnvironment := none
  useTee : Option Bool := none
  geoLocation : Option String := none
  deriving Repr, DecidableEq

/-- The mutable fields of `CashfreePayoutClient`. -/
structure ClientState where
  baseUrl : String
  environment : CashfreeEnvironment
  clientId : String
  clientSecret : String
  rsaPublicKey : Option String
  cachedBearerToken : Option String
  bearerTokenExpiry : Option Nat
  useTee : Bool
  geoLocation : Option String
  apiVersion : String
  deriving Repr, DecidableEq

/-- The `CashfreePayoutClient` constructor, evaluated at wall-clock time
`now0` (unix seconds): resolves the environment and base URL, copies the
credentials, and seeds the token cache with a 240-second expiry when a
truthy pre-obtained bearer token is supplied. -/
def constructClient (config : CashfreePayoutConfig) (now0 : Nat) : ClientState :=
  let env := config.environment.getD .production
  { baseUrl := CASHFREE_DOMAINS env
    environment := env
    clientId := config.credentials.clientId
    clientSecret := config.credentials.clientSecret
    rsaPublicKey := config.credentials.rsaPublicKey
    cachedBearerToken :=
      if strTruthy config.credentials.bearerToken then config.credentials.bearerToken else none
    bearerTokenExpiry :=
      if strTruthy config.credentials.bearerToken then some (now0 + 240) else none
    useTee := config.useTee.getD false
    geoLocation := config.geoLocation
    apiVersion := jsOr config.credentials.apiVersion DEFAULT_API_VERSION }

/-! ## cashfreeAuthorize response handling -/

/-- The shape-relevant part of a parsed authorize response body:
`status`, `data.token` and `message`, each possibly absent. -/
structure AuthorizeResponseData where
  token : Option String := none
  deriving Repr, DecidableEq

/-- Parsed JSON authorize response body. -/
structure AuthorizeResponseBody where
  status : Option String := none
  data : Option AuthorizeResponseData := none
  message : Option String := none
  deriving Repr, DecidableEq

/-- `parsed.data?.token` (optional chaining). -/
def AuthorizeResponseBody.dataToken (p : AuthorizeResponseBody) : Option String :=
  p.data.bind (fun d => d.token)

/-- The response-handling core of `cashfreeAuthorize`: given the raw body
string and its parse result (`none` when `JSON.parse` throws or property
access on the parsed value throws), resolve with the token on
`status == SUCCESS` with a truthy `data.token`, otherwise reject with the
server-reported `message` when truthy, else the raw body. -/
def cashfreeAuthorizeHandle (raw : String) (parsed : Option AuthorizeResponseBody) :
    Except String String :=
  match parsed with
  | none => .error ("Cashfree authorize: invalid response: " ++ raw)
  | some p =>
    if p.status = some "SUCCESS" ∧ strTruthy p.dataToken then
      .ok (p.dataToken.getD "")
    else
      .error ("Cashfree authorize failed: " ++ jsOr p.message raw)

/-! ## Token cache -/

/-- Truthiness test of the cache-freshness guard in `ensureBearerToken`:
`this.cachedBearerToken && this.bearerTokenExpiry && now < this.bearerTokenExpiry`. -/
def tokenFresh (c : ClientState) (now : Nat) : Bool :=
  strTruthy c.cachedBearerToken && natTruthy c.bearerTokenExpiry &&
    decide (now < c.bearerTokenExpiry.getD 0)

/-- Result of one `ensureBearerToken` step: the returned or thrown value,
the updated client state, and how many authorize calls were made. -/
structure EnsureOutcome where
  result : Except String String
  state : ClientState
  authCalls : Nat
  deriving Repr

/-- `ensureBearerToken`, with the outcome of the (at most one) authorize
call supplied as `auth`: return the cached token when fresh; otherwise
perform the authorize call and on success cache its token with expiry
`now + 240` (tokens last about 300 seconds; a 60-second buffer is kept). -/
def ensureBearerToken (c : ClientState) (now : Nat) (auth : Except String String) :
    EnsureOutcome :=
  if tokenFresh c now then
    { result := .ok (c.cachedBearerToken.getD ""), state := c, authCalls := 0 }
  else
    match auth with
    | .ok token =>
      { result := .ok token
        state := { c with cachedBearerToken := some token, bearerTokenExpiry := some (now + 240) }
        authCalls := 1 }
    | .error e => { result := .error e, state := c, authCalls := 1 }

/-! ## Header builders -/

/-- Result of `buildSecretHeaders`: the header list (or the propagated
authorize error), the updated state, and the authorize-call count. -/
structure SecretHeadersOutcome where
  result : Except String (List (String × String))
  state : ClientState
  authCalls : Nat
  deriving Repr

/-- `buildSecretHeaders`: resolve a fresh bearer token, then emit
`Authorization`, `x-client-id`, `x-client-secret`, and — when an RSA
public key is configured (truthy) — `X-Cf-Signature`.  The signature
string produced by `generateCfSignature` (RSA-OAEP over
`clientId.timestamp`) is abstracted as the parameter `sig`. -/
def buildSecretHeaders (c : ClientState) (now : Nat) (auth : Except String String)
    (sig : String) : SecretHeadersOutcome :=
  let eo := ensureBearerToken c now auth
  match eo.result with
  | .error e => { result := .error e, state := eo.state, authCalls := eo.authCalls }
  | .ok token =>
    { result := .ok
        ([("Authorization", "Bearer " ++ token),
          ("x-client-id", c.clientId),
          ("x-client-secret", c.clientSecret)] ++
         (if strTruthy c.rsaPublicKey then [("X-Cf-Signature", sig)] else []))
      state := eo.state
      authCalls := eo.authCalls }

/-- `buildPublicOptions`: the public descriptor carries only the
content-type and API-version headers plus the caller-supplied method,
body and context and the public config fields. -/
def buildPublicOptions (c : ClientState) (method : HttpMethod) (body : Option String)
    (context : Option ProofContext) : Options :=
  { method := method
    headers := [("Content-Type", "application/json"), ("x-api-version", c.apiVersion)]
    body := body
    useTee := c.useTee
    geoLocation := c.geoLocation
    context := context }

/-- `buildSecretOptions`: pure assembly of the secret descriptor. -/
def buildSecretOptions (secretHeaders : List (String × String))
    (responseMatches : List MatchRule) (responseRedactions : List RedactionRule) :
    SecretOptionsV :=
  { headers := secretHeaders
    responseMatches := responseMatches
    responseRedactions := responseRedactions }

/-! ## Proof objects and the proving entry points -/

/-- Modelled from the spec: `Proof` (declared in `interfaces.ts`, which is
not part of the provider module) is an "opaque result from the external
engine containing signatures, witness endpoints, and a mapping of
extracted field name → string value"; `cashfree-payout.ts` reads only
`extractedParameterValues`, which may be absent. -/
structure Proof where
  signatures : List String := []
  witnesses : List String := []
  extractedParameterValues : Option (List (String × String)) := none
  deriving Repr, DecidableEq

/-- `encodeURIComponent` applied to one UTF-8 byte (given as a `Nat`
below 256), per ECMA-262: bytes of unreserved characters
(`A-Z a-z 0-9 - _ . ! ~ * ( )` and the apostrophe, code 39) pass through;
every other byte becomes `%` followed by two uppercase hex digits. -/
def uriUnreservedByte (n : Nat) : Bool :=
  (65 ≤ n && n ≤ 90) || (97 ≤ n && n ≤ 122) || (48 ≤ n && n ≤ 57) ||
    n = 45 || n = 95 || n = 46 || n = 33 || n = 126 || n = 42 || n = 39 ||
    n = 40 || n = 41

/-- Uppercase hexadecimal digit for `n < 16`. -/
def hexDigit (n : Nat) : Char :=
  if n < 10 then Char.ofNat (48 + n) else Char.ofNat (55 + n)

/-- The characters `encodeURIComponent` emits for one UTF-8 byte. -/
def encodeByte (n : Nat) : List Char :=
  if uriUnreservedByte n then [Char.ofNat n]
  else ['%', hexDigit (n / 16), hexDigit (n % 16)]

/-- The UTF-8 encoding of one character, as a list of byte values. -/
def utf8Bytes (c : Char) : List Nat :=
  let n := c.toNat
  if n < 128 then [n]
  else if n < 2048 then [192 + n / 64, 128 + n % 64]
  else if n < 65536 then [224 + n / 4096, 128 + n / 64 % 64, 128 + n % 64]
  else [240 + n / 262144, 128 + n / 4096 % 64, 128 + n / 64 % 64, 128 + n % 64]

/-- Modelled from ECMA-262: JavaScript `encodeURIComponent`, acting
byte-wise on the UTF-8 encoding of the string. -/
def encodeURIComponent (s : String) : String :=
  String.mk (((s.data.map utf8Bytes).flatten.map encodeByte).flatten)

/-- `ProveTransferStatusOptions` from `types.ts` (`retries` and
`retryInterval` are forwarded verbatim to the external engine and play no
role in the embedded logic). -/
structure ProveTransferStatusOptions where
  transferId : String
  expectedStatus : Option CashfreeTransferStatus := none
  additionalExtractions : Option (List RedactionRule) := none
  context : Option ProofContext := none
  deriving Repr, DecidableEq

/-- `CashfreeTransferStatusResult` from `types.ts`. -/
structure CashfreeTransferStatusResult where
  proof : Proof
  transferId : String
  status : String
  cfTransferId : String
  transferAmount : Option String
  deriving Repr, DecidableEq

/-- Everything `proveTransferStatus` computes: the request URL, the
public and (on token success) secret descriptors handed to the engine,
the returned or thrown value, the updated client state and the
authorize-call count. -/
structure TransferStatusOutcome where
  url : String
  publicOpts : Options
  secretOpts : Option SecretOptionsV
  result : Except String CashfreeTransferStatusResult
  state : ClientState
  authCalls : Nat
  deriving Repr

/-- `proveTransferStatus`, with the authorize outcome `auth`, the
computed signature `sig`, and the external engine response `engine`
(`none` models `zkFetch` returning no proof) supplied explicitly. -/
def proveTransferStatus (c : ClientState) (now : Nat) (auth : Except String String)
    (sig : String) (options : ProveTransferStatusOptions) (engine : Option Proof) :
    TransferStatusOutcome :=
  let url := c.baseUrl ++ ENDPOINT_getTransferStatus ++ "?transfer_id=" ++
    encodeURIComponent options.transferId
  let publicOptions := buildPublicOptions c .GET none options.context
  let sh := buildSecretHeaders c now auth sig
  match sh.result with
  | .error e =>
    { url := url, publicOpts := publicOptions, secretOpts := none
      result := .error e, state := sh.state, authCalls := sh.authCalls }
  | .ok secretHeaders =>
    let secretOpts := buildSecretOptions secretHeaders
      (getTransferStatusMatches options.expectedStatus)
      (getTransferStatusRedactions options.additionalExtractions)
    match engine with
    | none =>
      { url := url, publicOpts := publicOptions, secretOpts := some secretOpts
        result := .error "Failed to generate proof for transfer status"
        state := sh.state, authCalls := sh.authCalls }
    | some proof =>
      let extracted := proof.extractedParameterValues.getD []
      { url := url, publicOpts := publicOptions, secretOpts := some secretOpts
        result := .ok
          { proof := proof
            transferId := jsOr (extracted.lookup "transfer_id") options.transferId
            status := jsOr (extracted.lookup "status") ""
            cfTransferId := jsOr (extracted.lookup "cf_transfer_id") ""
            transferAmount := extracted.lookup "transfer_amount" }
        state := sh.state, authCalls := sh.authCalls }

/-- `CashfreeTransferMode` from `types.ts`. -/
inductive CashfreeTransferMode where
  | banktransfer
  | upi
  deriving Repr, DecidableEq

/-- `CashfreeCreateTransferBody` from `types.ts`, restricted to its
required fields plus the optional top-level `beneficiary_id`
(`transfer_amount` is a JS number, modelled as a natural). -/
structure CashfreeCreateTransferBody where
  transfer_id : String
  transfer_amount : Nat
  transfer_mode : CashfreeTransferMode
  beneficiary_id : Option String := none
  deriving Repr, DecidableEq

/-- The string value of a `CashfreeTransferMode`. -/
def CashfreeTransferMode.valueOf : CashfreeTransferMode → String
  | .banktransfer => "banktransfer"
  | .upi => "upi"

/-- Modelled from ECMA-262: `JSON.stringify` on the modelled transfer
request body (fields in declaration order, `undefined` fields omitted). -/
def stringifyCreateTransferBody (b : CashfreeCreateTransferBody) : String :=
  "\x7b\"transfer_id\":\"" ++ b.transfer_id ++ "\",\"transfer_amount\":" ++
    toString b.transfer_amount ++ ",\"transfer_mode\":\"" ++ b.transfer_mode.valueOf ++ "\"" ++
    (match b.beneficiary_id with
     | some bid => ",\"beneficiary_id\":\"" ++ bid ++ "\""
     | none => "") ++ "\x7d"

/-- `ProveTransferCreationOptions` from `types.ts`. -/
structure ProveTransferCreationOptions where
  transferRequest : CashfreeCreateTransferBody
  context : Option ProofContext := none
  deriving Repr, DecidableEq

/-- `CashfreeTransferCreationResult` from `types.ts`. -/
structure CashfreeTransferCreationResult where
  proof : Proof
  transferId : String
  status : String
  cfTransferId : String
  deriving Repr, DecidableEq

/-- Everything `proveTransferCreation` computes. -/
structure TransferCreationOutcome where
  url : String
  publicOpts : Options
  secretOpts : Option SecretOptionsV
  result : Except String CashfreeTransferCreationResult
  state : ClientState
  authCalls : Nat
  deriving Repr

/-- `proveTransferCreation`, with authorize outcome, signature and engine
response supplied explicitly. -/
def proveTransferCreation (c : ClientState) (now : Nat) (auth : Except String String)
    (sig : String) (options : ProveTransferCreationOptions) (engine : Option Proof) :
    TransferCreationOutcome :=
  let url := c.baseUrl ++ ENDPOINT_createTransfer
  let publicOptions := buildPublicOptions c .POST
    (some (stringifyCreateTransferBody options.transferRequest)) options.context
  let sh := buildSecretHeaders c now auth sig
  match sh.result with
  | .error e =>
    { url := url, publicOpts := publicOptions, secretOpts := none
      result := .error e, state := sh.state, authCalls := sh.authCalls }
  | .ok secretHeaders =>
    let secretOpts := buildSecretOptions secretHeaders
      getTransferCreationMatches getTransferCreationRedactions
    match engine with
    | none =>
      { url := url, publicOpts := publicOptions, secretOpts := some secretOpts
        result := .error "Failed to generate proof for transfer creation"
        state := sh.state, authCalls := sh.authCalls }
    | some proof =>
      let extracted := proof.extractedParameterValues.getD []
      { url := url, publicOpts := publicOptions, secretOpts := some secretOpts
        result := .ok
          { proof := proof
            transferId := jsOr (extracted.lookup "transfer_id") ""
            status := jsOr (extracted.lookup "status") ""
            cfTransferId := jsOr (extracted.lookup "cf_transfer_id") "" }
        state := sh.state, authCalls := sh.authCalls }

/-! ## Observation helpers and concrete sample values -/

/-- All string components of a public descriptor: header keys and
values, body, geolocation and context fields. -/
def optionsComponents (o : Options) : List String :=
  o.headers.map Prod.fst ++ o.headers.map Prod.snd ++ o.body.toList ++
    o.geoLocation.toList ++
    (match o.context with
     | some ctx => [ctx.contextAddress, ctx.contextMessage]
     | none => [])

/-- The header keys of a successful `buildSecretHeaders` outcome. -/
def secretHeaderKeys (o : SecretHeadersOutcome) : Option (List String) :=
  match o.result with
  | .ok h => some (h.map Prod.fst)
  | .error _ => none

/-- The `Authorization` header value of a successful `buildSecretHeaders`
outcome. -/
def secretAuthHeader (o : SecretHeadersOutcome) : Option String :=
  match o.result with
  | .ok h => h.lookup "Authorization"
  | .error _ => none

/-- The `transferId` field of a successful `proveTransferCreation`
outcome. -/
def creationResultTransferId (o : TransferCreationOutcome) : Option String :=
  match o.result with
  | .ok r => some r.transferId
  | .error _ => none

/-- Sample Cashfree credentials (no RSA key, no pre-obtained token). -/
def sampleCreds : CashfreeCredentials :=
  { clientId := "cid_sample", clientSecret := "csec_sample" }

/-- Client constructed from `sampleCreds` at time 0: production
environment, empty token cache. -/
def cNoToken : ClientState := constructClient { credentials := sampleCreds } 0

/-- `cNoToken` with a token cached until unix second 100. -/
def cFresh : ClientState :=
  { cNoToken with cachedBearerToken := some "tok_cached", bearerTokenExpiry := some 100 }

/-- `cNoToken` with an RSA public key configured. -/
def cWithRsa : ClientState := { cNoToken with rsaPublicKey := some "PEM_SAMPLE" }

/-- A config carrying a pre-obtained bearer token. -/
def cfgPresupplied : CashfreePayoutConfig :=
  { credentials := { sampleCreds with bearerToken := some "T_pre" } }

/-- An engine proof whose extracted values are
`{transfer_id: t1, status: PENDING, cf_transfer_id: cf1}` and no
`transfer_amount`. -/
def proofPending : Proof :=
  { extractedParameterValues :=
      some [("transfer_id", "t1"), ("status", "PENDING"), ("cf_transfer_id", "cf1")] }

/-- An engine proof with an empty extracted-values mapping. -/
def proofEmpty : Proof := { extractedParameterValues := some [] }

/-- A creation request body with `transfer_id` `t9`. -/
def creationReq : CashfreeCreateTransferBody :=
  { transfer_id := "t9", transfer_amount := 100, transfer_mode := .banktransfer }

/-! ## Theorems -/

/-- Helper: every Unicode scalar value is below 1114112. -/
theorem char_toNat_lt (c : Char) : c.toNat < 1114112 := by
  have h := c.valid
  simp [isValidChar] at h
  simp [Char.toNat]
  rcases h with h | ⟨h1, h2⟩ <;> omega

/-- Helper: all UTF-8 byte values are below 256. -/
theorem utf8Bytes_lt (c : Char) : ∀ n ∈ utf8Bytes c, n < 256 := by
  intro n hn
  have hb := char_toNat_lt c
  simp only [utf8Bytes] at hn
  split at hn
  · simp at hn
    omega
  · split at hn
    · simp at hn
      rcases hn with hn | hn <;> omega
    · split at hn
      · simp at hn
        rcases hn with hn | hn | hn <;> omega
      · simp at hn
        rcases hn with hn | hn | hn | hn <;> omega

/-- Helper: no byte encodes to a URL metacharacter: every character
emitted by `encodeByte` differs from `&`, `=`, `?`, space and `/`. -/
theorem encodeByte_safe :
    ∀ n < 256, ∀ ch ∈ encodeByte n,
      ch ≠ '&' ∧ ch ≠ '=' ∧ ch ≠ '?' ∧ ch ≠ ' ' ∧ ch ≠ '/' := by
  set_option maxRecDepth 8192 in decide

/-- Helper: every character of an `encodeURIComponent` result avoids the
URL metacharacters `&`, `=`, `?`, space and `/`. -/
theorem encodeURIComponent_safe (s : String) :
    ∀ ch ∈ (encodeURIComponent s).data,
      ch ≠ '&' ∧ ch ≠ '=' ∧ ch ≠ '?' ∧ ch ≠ ' ' ∧ ch ≠ '/' := by
  intro ch hch
  have hch' : ch ∈ ((s.data.map utf8Bytes).flatten.map encodeByte).flatten := hch
  rw [List.mem_flatten] at hch'
  obtain ⟨l, hl, hchl⟩ := hch'
  rw [List.mem_map] at hl
  obtain ⟨n, hn, rfl⟩ := hl
  rw [List.mem_flatten] at hn
  obtain ⟨bs, hbs, hnbs⟩ := hn
  rw [List.mem_map] at hbs
  obtain ⟨c, _, rfl⟩ := hbs
  exact encodeByte_safe n (utf8Bytes_lt c n hnbs) ch hchl

/-- C9: `getTransferStatusRedactions` with no additional rules returns
exactly the 4 default field rules; with a list of k additional rules it
returns the 4 defaults in their default order followed by the caller
rules, of total length 4 + k — defaults are never replaced or removed. -/
theorem getTransferStatusRedactions_spec :
    getTransferStatusRedactions none =
      [STATUS_REDACTION_transferId, STATUS_REDACTION_cfTransferId,
       STATUS_REDACTION_status, STATUS_REDACTION_transferAmount] ∧
    ∀ l : List RedactionRule,
      getTransferStatusRedactions (some l) =
        [STATUS_REDACTION_transferId, STATUS_REDACTION_cfTransferId,
         STATUS_REDACTION_status, STATUS_REDACTION_transferAmount] ++ l ∧
      (getTransferStatusRedactions (some l)).length = 4 + l.length := by
  refine ⟨rfl, fun l => ?_⟩
  have h : getTransferStatusRedactions (some l) =
      [STATUS_REDACTION_transferId, STATUS_REDACTION_cfTransferId,
       STATUS_REDACTION_status, STATUS_REDACTION_transferAmount] ++ l := by
    rcases l with _ | ⟨a, l⟩
    · simp [getTransferStatusRedactions]
    · simp [getTransferStatusRedactions]
  refine ⟨h, ?_⟩
  rw [h]
  simp [List.length_append]
  omega

/-- C3: when an expected status `S` is supplied, the first match rule is
the `contains` assertion on `S` (an enforced rule, so proof generation
fails when the remote status differs); without one, the rule set still
contains the enforced rule targeting the `transfer_id` field (whose regex
can only match responses in which that field is present); and in both
cases the four regex extraction rules for `transfer_id`,
`cf_transfer_id`, `status` and `transfer_amount` are in the list. -/
theorem getTransferStatusMatches_spec :
    (∀ s : CashfreeTransferStatus,
      (getTransferStatusMatches (some s)).head? =
        some { type := .contains, value := "\"status\":\"" ++ s.valueOf ++ "\"" }) ∧
    (MATCH_extract_transfer_id ∈ getTransferStatusMatches none ∧
      strContains MATCH_extract_transfer_id.value "\"transfer_id\"" = true) ∧
    ∀ es : Option CashfreeTransferStatus,
      MATCH_extract_transfer_id ∈ getTransferStatusMatches es ∧
      MATCH_extract_cf_transfer_id ∈ getTransferStatusMatches es ∧
      MATCH_extract_status ∈ getTransferStatusMatches es ∧
      MATCH_extract_transfer_amount ∈ getTransferStatusMatches es := by
  refine ⟨fun s => rfl, by decide, fun es => ?_⟩
  rcases es with _ | s <;>
    simp [getTransferStatusMatches]

/-- C10: the URL built by `proveTransferStatus` is exactly the resolved
base URL, then `/payout/transfers?transfer_id=`, then
`encodeURIComponent` of the transfer id — and the encoded transfer id
contains none of `&`, `=`, `?`, space or `/`, so it can neither alter the
path nor introduce extra query parameters. -/
theorem proveTransferStatus_url_spec :
    ∀ (c : ClientState) (now : Nat) (auth : Except String String) (sig : String)
      (options : ProveTransferStatusOptions) (engine : Option Proof),
      (proveTransferStatus c now auth sig options engine).url =
        c.baseUrl ++ "/payout/transfers?transfer_id=" ++
          encodeURIComponent options.transferId ∧
      ∀ ch ∈ (encodeURIComponent options.transferId).data,
        ch ≠ '&' ∧ ch ≠ '=' ∧ ch ≠ '?' ∧ ch ≠ ' ' ∧ ch ≠ '/' := by
  intro c now auth sig options engine
  refine ⟨?_, encodeURIComponent_safe options.transferId⟩
  have hurl : (proveTransferStatus c now auth sig options engine).url =
      c.baseUrl ++ ENDPOINT_getTransferStatus ++ "?transfer_id=" ++
        encodeURIComponent options.transferId := by
    cases hsh : (buildSecretHeaders c now auth sig).result <;>
      cases engine <;>
      simp [proveTransferStatus, hsh]
  rw [hurl, ENDPOINT_getTransferStatus, String.append_assoc c.baseUrl]
  rfl

/-- Witness for `proveTransferStatus_url_spec` at transfer id `a&b`. -/
theorem proveTransferStatus_url_spec_witness :
    'a' ≠ '&' ∧ 'a' ≠ '=' ∧ 'a' ≠ '?' ∧ 'a' ≠ ' ' ∧ 'a' ≠ '/' :=
  (proveTransferStatus_url_spec cNoToken 0 (.ok "tok") "sig"
    { transferId := "a&b" } none).2 'a' (by decide)

/-- C1 counterexample: `buildPublicOptions` forwards the caller-supplied
body verbatim, so a body equal to the client secret makes the returned
public descriptor contain the secret — refuting the universally
quantified claim. -/
theorem buildPublicOptions_body_can_carry_secret :
    cFresh.clientSecret ≠ "" ∧
    cFresh.clientSecret ∈
      optionsComponents (buildPublicOptions cFresh .POST (some "csec_sample") none) := by
  decide

/-- C1 (amended): the headers of `buildPublicOptions` are exactly
`Content-Type: application/json` and `x-api-version: <configured
version>`; the result is independent of the cached bearer token, its
expiry, the client secret and the RSA key; and any string that is not
contained in the fixed header literals, the configured API version, the
caller-supplied body and context, or the configured geolocation is
contained in no component of the returned value. -/
theorem buildPublicOptions_no_secret_leak :
    ∀ (c : ClientState) (m : HttpMethod) (body : Option String)
      (ctx : Option ProofContext),
      (buildPublicOptions c m body ctx).headers =
        [("Content-Type", "application/json"), ("x-api-version", c.apiVersion)] ∧
      (∀ tok exp sec rsa,
        buildPublicOptions
          { c with cachedBearerToken := tok, bearerTokenExpiry := exp,
                   clientSecret := sec, rsaPublicKey := rsa } m body ctx =
          buildPublicOptions c m body ctx) ∧
      (∀ s : String,
        (∀ x ∈ ["Content-Type", "application/json", "x-api-version", c.apiVersion] ++
            body.toList ++ c.geoLocation.toList ++
            (match ctx with
             | some cc => [cc.contextAddress, cc.contextMessage]
             | none => []), strContains x s = false) →
        ∀ comp ∈ optionsComponents (buildPublicOptions c m body ctx),
          strContains comp s = false) := by
  intro c m body ctx
  refine ⟨rfl, fun tok exp sec rsa => rfl, ?_⟩
  intro s h comp hcomp
  apply h
  rcases ctx with _ | cc <;> rcases body with _ | b <;>
    simp [optionsComponents, buildPublicOptions] at hcomp ⊢ <;>
    tauto

/-- Witness for `buildPublicOptions_no_secret_leak`: the fixed header
value contains no occurrence of the sample client secret. -/
theorem buildPublicOptions_no_secret_leak_witness :
    strContains "application/json" "csec_sample" = false :=
  (buildPublicOptions_no_secret_leak cFresh .GET none none).2.2 "csec_sample"
    (by decide) "application/json" (by decide)

/-- C2: if a (nonempty) cached token exists and `now < expiry`,
`ensureBearerToken` returns it with the cache unchanged and no authorize
call; in every other state it makes exactly one authorize call and, on
success, caches the returned token under expiry `now + 240` (the
240-second safety window sits strictly below the roughly 300-second true
token lifetime); consequently, after a refresh at `now`, a resolution
before `now + 240` makes no further authorize call and returns the same
token, and a resolution at or after `now + 240` makes exactly one more. -/
theorem ensureBearerToken_spec :
    ∀ (c : ClientState) (now : Nat) (auth : Except String String),
      (∀ t e, c.cachedBearerToken = some t → t ≠ "" →
        c.bearerTokenExpiry = some e → now < e →
        ensureBearerToken c now auth =
          { result := .ok t, state := c, authCalls := 0 }) ∧
      (tokenFresh c now = false →
        (ensureBearerToken c now auth).authCalls = 1 ∧
        ∀ tk, auth = .ok tk →
          ensureBearerToken c now auth =
            { result := .ok tk
              state := { c with cachedBearerToken := some tk,
                                bearerTokenExpiry := some (now + 240) }
              authCalls := 1 }) ∧
      240 < 300 ∧
      (∀ tk, tokenFresh c now = false → tk ≠ "" →
        ∀ now2 auth2, now2 < now + 240 →
          ensureBearerToken (ensureBearerToken c now (.ok tk)).state now2 auth2 =
            { result := .ok tk, state := (ensureBearerToken c now (.ok tk)).state,
              authCalls := 0 }) ∧
      (∀ tk, tokenFresh c now = false →
        ∀ now2 auth2, now + 240 ≤ now2 →
          (ensureBearerToken (ensureBearerToken c now (.ok tk)).state now2 auth2).authCalls
            = 1) := by
  intro c now auth
  have fresh_true : ∀ (c' : ClientState) (n : Nat) t e, c'.cachedBearerToken = some t →
      t ≠ "" → c'.bearerTokenExpiry = some e → n < e → tokenFresh c' n = true := by
    intro c' n t e ht htne he hlt
    have he0 : e ≠ 0 := by omega
    simp [tokenFresh, ht, he, strTruthy, natTruthy, htne, he0, hlt]
  refine ⟨?_, ?_, by omega, ?_, ?_⟩
  · intro t e ht htne he hlt
    have hf := fresh_true c now t e ht htne he hlt
    simp [ensureBearerToken, hf, ht]
  · intro hnf
    constructor
    · cases auth <;> simp [ensureBearerToken, hnf]
    · intro tk htk
      subst htk
      simp [ensureBearerToken, hnf]
  · intro tk hnf htkne now2 auth2 hlt
    have hstate : (ensureBearerToken c now (.ok tk)).state =
        { c with cachedBearerToken := some tk, bearerTokenExpiry := some (now + 240) } := by
      simp [ensureBearerToken, hnf]
    rw [hstate]
    have hf := fresh_true
      { c with cachedBearerToken := some tk, bearerTokenExpiry := some (now + 240) }
      now2 tk (now + 240) rfl htkne rfl hlt
    simp [ensureBearerToken, hf]
  · intro tk hnf now2 auth2 hge
    have hstate : (ensureBearerToken c now (.ok tk)).state =
        { c with cachedBearerToken := some tk, bearerTokenExpiry := some (now + 240) } := by
      simp [ensureBearerToken, hnf]
    rw [hstate]
    have hnf2 : tokenFresh
        { c with cachedBearerToken := some tk, bearerTokenExpiry := some (now + 240) }
        now2 = false := by
      simp [tokenFresh, strTruthy, natTruthy]
      intros
      omega
    cases auth2 <;> simp [ensureBearerToken, hnf2]

/-- Witness for `ensureBearerToken_spec`: the cached token of `cFresh`
is returned unchanged at time 50 with no authorize call. -/
theorem ensureBearerToken_spec_witness :
    ensureBearerToken cFresh 50 (.ok "other") =
      { result := .ok "tok_cached", state := cFresh, authCalls := 0 } :=
  (ensureBearerToken_spec cFresh 50 (.ok "other")).1 "tok_cached" 100 rfl
    (by decide) rfl (by decide)

/-- C4 counterexample: with no RSA public key configured — a reachable,
legal configuration (`rsaPublicKey` is optional) — `buildSecretHeaders`
returns only 3 of the 4 authentication headers: a strict subset, refuting
the never-partially-populated claim. -/
theorem buildSecretHeaders_three_headers_reachable :
    secretHeaderKeys (buildSecretHeaders cFresh 0 (.ok "x") "sig") =
      some ["Authorization", "x-client-id", "x-client-secret"] ∧
    "X-Cf-Signature" ∉ (secretHeaderKeys (buildSecretHeaders cFresh 0 (.ok "x") "sig")).getD [] := by
  decide

/-- C4 (amended): whenever `buildSecretHeaders` returns, its header keys
are exactly `Authorization`, `x-client-id`, `x-client-secret` plus — when
an RSA public key is configured — `X-Cf-Signature`: all four are present
exactly when the signature material exists, and no other subset occurs. -/
theorem buildSecretHeaders_keys_spec :
    ∀ (c : ClientState) (now : Nat) (auth : Except String String) (sig : String)
      (hdrs : List (String × String)),
      (buildSecretHeaders c now auth sig).result = .ok hdrs →
        hdrs.map Prod.fst =
          (if strTruthy c.rsaPublicKey then
            ["Authorization", "x-client-id", "x-client-secret", "X-Cf-Signature"]
           else ["Authorization", "x-client-id", "x-client-secret"]) := by
  intro c now auth sig hdrs h
  cases heo : (ensureBearerToken c now auth).result with
  | error e =>
    simp [buildSecretHeaders, heo] at h
  | ok tok =>
    simp [buildSecretHeaders, heo] at h
    subst h
    by_cases hrsa : strTruthy c.rsaPublicKey = true <;>
      simp [hrsa]

/-- Witness for `buildSecretHeaders_keys_spec`: with an RSA key
configured, all four header keys appear. -/
theorem buildSecretHeaders_keys_spec_witness :
    ([("Authorization", "Bearer " ++ "tokA"), ("x-client-id", "cid_sample"),
      ("x-client-secret", "csec_sample"), ("X-Cf-Signature", "sigA")].map Prod.fst) =
      (if strTruthy cWithRsa.rsaPublicKey then
        ["Authorization", "x-client-id", "x-client-secret", "X-Cf-Signature"]
       else ["Authorization", "x-client-id", "x-client-secret"]) :=
  buildSecretHeaders_keys_spec cWithRsa 0 (.ok "tokA") "sigA" _ rfl

/-- C5: the authorize response handler resolves with a token exactly when
the body parsed, its `status` is `SUCCESS` and a (nonempty) token is
present under `data`; a non-parseable body rejects with an invalid
response error carrying the raw body, and any other parsed shape rejects
with an error carrying the server-reported `message` when truthy, else
the raw body. -/
theorem cashfreeAuthorizeHandle_spec :
    ∀ (raw : String) (parsed : Option AuthorizeResponseBody),
      (∀ t : String,
        cashfreeAuthorizeHandle raw parsed = .ok t ↔
          ∃ p, parsed = some p ∧ p.status = some "SUCCESS" ∧
            p.dataToken = some t ∧ t ≠ "") ∧
      (parsed = none →
        cashfreeAuthorizeHandle raw parsed =
          .error ("Cashfree authorize: invalid response: " ++ raw)) ∧
      (∀ p, parsed = some p →
        ¬(p.status = some "SUCCESS" ∧ strTruthy p.dataToken = true) →
        cashfreeAuthorizeHandle raw parsed =
          .error ("Cashfree authorize failed: " ++ jsOr p.message raw)) := by
  intro raw parsed
  refine ⟨?_, ?_, ?_⟩
  · intro t
    constructor
    · intro h
      cases parsed with
      | none => simp [cashfreeAuthorizeHandle] at h
      | some p =>
        by_cases hc : (p.status = some "SUCCESS" ∧ strTruthy p.dataToken = true)
        · rw [show cashfreeAuthorizeHandle raw (some p) =
              if p.status = some "SUCCESS" ∧ strTruthy p.dataToken then
                .ok (p.dataToken.getD "")
              else .error ("Cashfree authorize failed: " ++ jsOr p.message raw) from rfl,
            if_pos hc] at h
          cases hdt : p.dataToken with
          | none => rw [hdt] at hc; simp [strTruthy] at hc
          | some u =>
            rw [hdt] at h
            have hu : u ≠ "" := by
              have := hc.2
              rw [hdt] at this
              simpa [strTruthy] using this
            have htu : t = u := by
              simpa using h.symm
            exact ⟨p, rfl, hc.1, by rw [hdt, htu], htu ▸ hu⟩
        · rw [show cashfreeAuthorizeHandle raw (some p) =
              if p.status = some "SUCCESS" ∧ strTruthy p.dataToken then
                .ok (p.dataToken.getD "")
              else .error ("Cashfree authorize failed: " ++ jsOr p.message raw) from rfl,
            if_neg hc] at h
          simp at h
    · rintro ⟨p, rfl, hst, hdt, htne⟩
      have hc : p.status = some "SUCCESS" ∧ strTruthy p.dataToken = true := by
        refine ⟨hst, ?_⟩
        rw [hdt]
        simp [strTruthy, htne]
      rw [show cashfreeAuthorizeHandle raw (some p) =
          if p.status = some "SUCCESS" ∧ strTruthy p.dataToken then
            .ok (p.dataToken.getD "")
          else .error ("Cashfree authorize failed: " ++ jsOr p.message raw) from rfl,
        if_pos hc, hdt]
      rfl
  · intro h
    subst h
    rfl
  · intro p hp hc
    subst hp
    rw [show cashfreeAuthorizeHandle raw (some p) =
        if p.status = some "SUCCESS" ∧ strTruthy p.dataToken then
          .ok (p.dataToken.getD "")
        else .error ("Cashfree authorize failed: " ++ jsOr p.message raw) from rfl,
      if_neg hc]

/-- Witness for `cashfreeAuthorizeHandle_spec`: a SUCCESS body with token
`tok123` resolves with `tok123`. -/
theorem cashfreeAuthorizeHandle_spec_witness :
    cashfreeAuthorizeHandle "rawbody"
      (some { status := some "SUCCESS", data := some { token := some "tok123" } }) =
      .ok "tok123" :=
  ((cashfreeAuthorizeHandle_spec "rawbody"
      (some { status := some "SUCCESS", data := some { token := some "tok123" } })).1
    "tok123").mpr
    ⟨{ status := some "SUCCESS", data := some { token := some "tok123" } },
      rfl, rfl, rfl, by decide⟩

/-- C6: once secret headers resolve, `proveTransferStatus` rejects with
the proof-generation error when the engine returns no proof; on a
non-null proof it returns a result carrying the proof whose `transferId`
is the extracted `transfer_id` (falling back to the caller-supplied
transferId when extraction yields nothing), whose `status` is the
extracted status, and whose `transferAmount` is absent when no
`transfer_amount` was extracted. -/
theorem proveTransferStatus_result_spec :
    ∀ (c : ClientState) (now : Nat) (auth : Except String String) (sig : String)
      (options : ProveTransferStatusOptions) (engine : Option Proof)
      (hdrs : List (String × String)),
      (buildSecretHeaders c now auth sig).result = .ok hdrs →
        (engine = none →
          (proveTransferStatus c now auth sig options engine).result =
            .error "Failed to generate proof for transfer status") ∧
        (∀ proof : Proof, engine = some proof →
          ∃ r, (proveTransferStatus c now auth sig options engine).result = .ok r ∧
            r.proof = proof ∧
            (∀ t, (proof.extractedParameterValues.getD []).lookup "transfer_id" = some t →
              t ≠ "" → r.transferId = t) ∧
            ((proof.extractedParameterValues.getD []).lookup "transfer_id" = none →
              r.transferId = options.transferId) ∧
            (∀ t, (proof.extractedParameterValues.getD []).lookup "status" = some t →
              t ≠ "" → r.status = t) ∧
            ((proof.extractedParameterValues.getD []).lookup "transfer_amount" = none →
              r.transferAmount = none)) := by
  intro c now auth sig options engine hdrs h
  constructor
  · intro he
    subst he
    simp [proveTransferStatus, h]
  · intro proof he
    subst he
    simp only [proveTransferStatus, h]
    refine ⟨_, rfl, rfl, ?_, ?_, ?_, ?_⟩
    · intro t ht htne
      simp [ht, jsOr, htne]
    · intro ht
      simp [ht, jsOr]
    · intro t ht htne
      simp [ht, jsOr, htne]
    · intro ht
      simp [ht]

/-- Witness for `proveTransferStatus_result_spec`: the fixture proof with
extracted values `{transfer_id: t1, status: PENDING, cf_transfer_id:
cf1}` and no amount yields `transferId = t1`, `status = PENDING` and an
absent `transferAmount`. -/
theorem proveTransferStatus_result_spec_witness :
    ∃ r, (proveTransferStatus cNoToken 0 (Except.ok "tok") "sig"
        { transferId := "t0" } (some proofPending)).result = .ok r ∧
      r.transferId = "t1" ∧ r.status = "PENDING" ∧ r.transferAmount = none := by
  obtain ⟨r, hr, hproof, hid, hidn, hst, ham⟩ :=
    (proveTransferStatus_result_spec cNoToken 0 (.ok "tok") "sig" { transferId := "t0" }
      (some proofPending)
      [("Authorization", "Bearer tok"), ("x-client-id", "cid_sample"),
       ("x-client-secret", "csec_sample")] rfl).2 proofPending rfl
  exact ⟨r, hr, hid "t1" rfl (by decide), hst "PENDING" rfl (by decide), ham rfl⟩

/-- C7 counterexample: a client constructed at time 0 from a pre-supplied
token performs an authorization call at a secret-header resolution at
time 240 (the seeded expiry), and its Authorization header then carries
the newly authorized token, not the pre-supplied one — refuting the claim
that every resolution uses the pre-supplied token with no authorization
call. -/
theorem presupplied_reauthorizes_after_expiry :
    (buildSecretHeaders (constructClient cfgPresupplied 0) 240 (.ok "T2") "s").authCalls
      = 1 ∧
    secretAuthHeader
      (buildSecretHeaders (constructClient cfgPresupplied 0) 240 (.ok "T2") "s") =
      some ("Bearer " ++ "T2") ∧
    ("T2" : String) ≠ "T_pre" := by
  decide

/-- C7 (amended): a client constructed with a (nonempty) pre-supplied
token `T` seeds the cache with `T` and a conservative 240-second
remaining lifetime (strictly below the roughly 300-second true lifetime),
and every secret-header resolution before the seeded expiry returns
`Authorization: Bearer T` exactly, performs no authorization call, and
leaves the state unchanged. -/
theorem presuppliedToken_spec :
    ∀ (config : CashfreePayoutConfig) (now0 : Nat) (T : String),
      config.credentials.bearerToken = some T → T ≠ "" →
      (constructClient config now0).cachedBearerToken = some T ∧
      (constructClient config now0).bearerTokenExpiry = some (now0 + 240) ∧
      240 < 300 ∧
      ∀ now auth sig, now < now0 + 240 →
        buildSecretHeaders (constructClient config now0) now auth sig =
          { result := .ok
              ([("Authorization", "Bearer " ++ T),
                ("x-client-id", (constructClient config now0).clientId),
                ("x-client-secret", (constructClient config now0).clientSecret)] ++
               (if strTruthy (constructClient config now0).rsaPublicKey
                then [("X-Cf-Signature", sig)] else []))
            state := constructClient config now0
            authCalls := 0 } := by
  intro config now0 T hT hTne
  have hstr : strTruthy (some T) = true := by
    simp [strTruthy, hTne]
  have hcache : (constructClient config now0).cachedBearerToken = some T := by
    simp [constructClient, hT, hstr]
  have hexp : (constructClient config now0).bearerTokenExpiry = some (now0 + 240) := by
    simp [constructClient, hT, hstr]
  refine ⟨hcache, hexp, by omega, ?_⟩
  intro now auth sig hlt
  have hf : tokenFresh (constructClient config now0) now = true := by
    simp [tokenFresh, hcache, hexp, strTruthy, natTruthy, hTne]
    omega
  have he : ensureBearerToken (constructClient config now0) now auth =
      { result := .ok T, state := constructClient config now0, authCalls := 0 } := by
    simp [ensureBearerToken, hf, hcache]
  simp [buildSecretHeaders, he]

/-- Witness for `presuppliedToken_spec`: the pre-supplied token `T_pre`
is served at time 100 with no authorization call. -/
theorem presuppliedToken_spec_witness :
    buildSecretHeaders (constructClient cfgPresupplied 0) 100 (Except.ok "ZZZ") "s" =
      { result := .ok
          ([("Authorization", "Bearer " ++ "T_pre"),
            ("x-client-id", (constructClient cfgPresupplied 0).clientId),
            ("x-client-secret", (constructClient cfgPresupplied 0).clientSecret)] ++
           (if strTruthy (constructClient cfgPresupplied 0).rsaPublicKey
            then [("X-Cf-Signature", "s")] else []))
        state := constructClient cfgPresupplied 0
        authCalls := 0 } :=
  (presuppliedToken_spec cfgPresupplied 0 "T_pre" rfl (by decide)).2.2.2 100
    (.ok "ZZZ") "s" (by decide)

/-- C8 counterexample: with an empty extracted-values mapping,
`proveTransferCreation` sets `transferId` to the empty string, not to the
`transfer_id` (`t9`) of the caller's transfer request body — refuting the
request-identifier-fallback claim. -/
theorem proveTransferCreation_ignores_request_id :
    creationReq.transfer_id = "t9" ∧
    creationResultTransferId
      (proveTransferCreation cNoToken 0 (.ok "tok") "sig"
        { transferRequest := creationReq } (some proofEmpty)) = some "" := by
  decide

/-- C8 (amended): on a non-null proof, `proveTransferCreation` returns
the typed projection of the extracted-values mapping in which absent (or
empty) extractions for `transfer_id`, `status` and `cf_transfer_id` fall
back to the empty string — the caller's request identifiers are not used
as fallback. -/
theorem proveTransferCreation_result_spec :
    ∀ (c : ClientState) (now : Nat) (auth : Except String String) (sig : String)
      (options : ProveTransferCreationOptions) (engine : Option Proof)
      (hdrs : List (String × String)),
      (buildSecretHeaders c now auth sig).result = .ok hdrs →
        (engine = none →
          (proveTransferCreation c now auth sig options engine).result =
            .error "Failed to generate proof for transfer creation") ∧
        (∀ proof : Proof, engine = some proof →
          ∃ r, (proveTransferCreation c now auth sig options engine).result = .ok r ∧
            r.proof = proof ∧
            (∀ t, (proof.extractedParameterValues.getD []).lookup "transfer_id" = some t →
              t ≠ "" → r.transferId = t) ∧
            ((proof.extractedParameterValues.getD []).lookup "transfer_id" = none →
              r.transferId = "") ∧
            ((proof.extractedParameterValues.getD []).lookup "status" = none →
              r.status = "") ∧
            ((proof.extractedParameterValues.getD []).lookup "cf_transfer_id" = none →
              r.cfTransferId = "")) := by
  intro c now auth sig options engine hdrs h
  constructor
  · intro he
    subst he
    simp [proveTransferCreation, h]
  · intro proof he
    subst he
    simp only [proveTransferCreation, h]
    refine ⟨_, rfl, rfl, ?_, ?_, ?_, ?_⟩
    · intro t ht htne
      simp [ht, jsOr, htne]
    · intro ht
      simp [ht, jsOr]
    · intro ht
      simp [ht, jsOr]
    · intro ht
      simp [ht, jsOr]

/-- Witness for `proveTransferCreation_result_spec`: the empty
extracted-values fixture yields empty-string `transferId` and `status`. -/
theorem proveTransferCreation_result_spec_witness :
    ∃ r, (proveTransferCreation cNoToken 0 (Except.ok "tok") "sig"
        { transferRequest := creationReq } (some proofEmpty)).result = .ok r ∧
      r.transferId = "" ∧ r.status = "" := by
  obtain ⟨r, hr, hproof, hid, hidn, hstn, hcfn⟩ :=
    (proveTransferCreation_result_spec cNoToken 0 (.ok "tok") "sig"
      { transferRequest := creationReq } (some proofEmpty)
      [("Authorization", "Bearer tok"), ("x-client-id", "cid_sample"),
       ("x-client-secret", "csec_sample")] rfl).2 proofEmpty rfl
  exact ⟨r, hr, hidn rfl, hstn rfl⟩
